import Mathlib

/-!
Verification of the HTTP-client configurator in `src/lib/axios-client.ts`.

The file embeds the two behaviours of that module as pure Lean functions:

* `getBaseURLLog` / `getBaseURL` — resolution of the API base URL from the
  optional environment string `VITE_API_BASE_URL` and the production flag,
  together with the console diagnostics the source emits on the way;
* `errorInterceptor` — the rejection handler installed with
  `API.interceptors.response.use`, which normalizes every failure into the
  `CustomError` shape, optionally navigates to the root path, and logs.

JavaScript truthiness (`if (envURL)`, `x || y`) is modelled explicitly:
`undefined` and the empty string are the falsy string values.
-/

namespace AxiosClient

/-- One console record: `console.error` or `console.log` with its arguments. -/
inductive ConsoleEntry where
  | consoleError : List String → ConsoleEntry
  | consoleLog : List String → ConsoleEntry
  deriving DecidableEq

/-- JavaScript `x || d` for an optional string `x`: `undefined` and the empty
string are falsy, any other string is returned unchanged. -/
def jsOr : Option String → String → String
  | some s, d => if s = "" then d else s
  | none, d => d

/-- Whitespace characters removed by JavaScript `trim` (restricted to the
ASCII whitespace the values at hand can contain). -/
def jsWhitespace (c : Char) : Bool :=
  c == ' ' || c == '\t' || c == '\n' || c == '\r'

/-- JavaScript `s.trim()`: remove leading and trailing whitespace. -/
def jsTrim (s : String) : String :=
  String.mk (((s.data.dropWhile jsWhitespace).reverse.dropWhile jsWhitespace).reverse)

/-- JavaScript `s.startsWith(p)`. -/
def jsStartsWith (s p : String) : Bool :=
  p.data.isPrefixOf s.data

/-- JavaScript test for a trailing occurrence of `p` in `s`. -/
def jsEndsWith (s p : String) : Bool :=
  p.data.isSuffixOf s.data

/-- JavaScript `s.replace(RegExp slash-dollar, empty)`: remove a single
trailing slash when one is present. -/
def stripTrailingSlash (s : String) : String :=
  if jsEndsWith s "/" then String.mk s.data.dropLast else s

/-- The missing-configuration diagnostic printed by `console.error` when the
environment variable is absent in production, verbatim from the source. -/
def missingConfigMessage : String :=
  "❌ VITE_API_BASE_URL is not set in production environment!\n" ++
    "Please set it in your Vercel project settings:\n" ++
    "Settings → Environment Variables → Add VITE_API_BASE_URL\n" ++
    "Example value: https://task-manager-l2ug.onrender.com/api"

/-- Fallback of `getBaseURL` taken when `envURL` is falsy (absent or empty):
in production log the missing-configuration diagnostic and return the empty
string; in development return the literal localhost address. -/
def fallbackResult (prod : Bool) : String × List ConsoleEntry :=
  if prod then ("", [ConsoleEntry.consoleError [missingConfigMessage]])
  else ("http://localhost:4000/api", [])

/-- `getBaseURL` from the source, with its console effects made explicit.
The first component is the returned string, the second the list of console
entries emitted during the call.  `envURL` models
`import.meta.env.VITE_API_BASE_URL` (`none` = unset), `prod` models
`import.meta.env.PROD`.  The JavaScript guard `if (envURL)` is falsy both for
`undefined` and for the empty string, hence the two ways into the fallback. -/
def getBaseURLLog (envURL : Option String) (prod : Bool) : String × List ConsoleEntry :=
  match envURL with
  | some s =>
    if s = "" then fallbackResult prod
    else
      let trimmedURL := jsTrim s
      if jsStartsWith trimmedURL "http://" || jsStartsWith trimmedURL "https://" then
        (stripTrailingSlash trimmedURL, [])
      else
        let protocol := if prod then "https://" else "http://"
        (stripTrailingSlash (protocol ++ trimmedURL), [])
  | none => fallbackResult prod

/-- The resolved base URL: the value component of `getBaseURLLog`. -/
def getBaseURL (envURL : Option String) (prod : Bool) : String :=
  (getBaseURLLog envURL prod).1

/-- Body (`data`) of a received error response: a plain string, a JSON object
whose `errorCode` field is an optional string, or a null-like body. -/
inductive Body where
  | str : String → Body
  | obj : Option String → Body
  | null : Body
  deriving DecidableEq

/-- Optional chaining `data?.errorCode`: only an object body can expose an
`errorCode` field; a string or null body yields `undefined`. -/
def bodyErrorCode : Body → Option String
  | Body.str _ => none
  | Body.obj ec => ec
  | Body.null => none

/-- A received HTTP error response: its `data` body and `status` code. -/
structure ErrorResponse where
  data : Body
  status : Nat
  deriving DecidableEq

/-- The failure object handed to the rejection handler by axios: an optional
`response` (absent for network-level failures) and an optional `message`. -/
structure ErrorInput where
  response : Option ErrorResponse
  message : Option String
  deriving DecidableEq

/-- Modelled from the spec: the `CustomError` type is imported from
`@/types/custom-error.type`, a file that is not part of the sources; the spec
describes it (as `NormalizedError`) as the original failure fields plus a
required `errorCode` string and an optional `message`.  The construction sites
in the source (`\x7b...error, errorCode: ...\x7d`) match this shape. -/
structure CustomError where
  response : Option ErrorResponse
  message : Option String
  errorCode : String
  deriving DecidableEq

/-- How the rejection handler settles the in-flight operation: pass the value
through as a success, or reject with a normalized error. -/
inductive HandlerOutcome where
  | resolve : HandlerOutcome
  | reject : CustomError → HandlerOutcome
  deriving DecidableEq

/-- Everything one run of the rejection handler does: the settled outcome, any
assignment to `window.location.href`, and the console output. -/
structure InterceptEffects where
  outcome : HandlerOutcome
  location : Option String
  log : List ConsoleEntry
  deriving DecidableEq

/-- `console.error` renders a missing (`undefined`) argument as the text
`undefined`. -/
def showOptMsg : Option String → String
  | some s => s
  | none => "undefined"

/-- The rejection handler installed with `API.interceptors.response.use`,
embedded from the source.  The spread `...error` copies the original failure
fields (`response`, `message`) into the constructed `CustomError`; the
explicit fields written after the spread override them. -/
def errorInterceptor (error : ErrorInput) : InterceptEffects :=
  match error.response with
  | none =>
    { outcome := HandlerOutcome.reject
        { response := none
          message := some (jsOr error.message "Network error. Please check your API configuration.")
          errorCode := "NETWORK_ERROR" }
      location := none
      log := [ConsoleEntry.consoleError ["Network error:", showOptMsg error.message]] }
  | some resp =>
    { outcome := HandlerOutcome.reject
        { response := some resp
          message := error.message
          errorCode := jsOr (bodyErrorCode resp.data) "UNKNOWN_ERROR" }
      location :=
        if resp.data = Body.str "Unauthorized" ∧ resp.status = 401 then some "/" else none
      log := [] }

/-! ### Helper lemmas -/

/-- `jsOr` never returns the empty string when its default is non-empty. -/
theorem jsOr_ne_empty (m : Option String) (d : String) (hd : d ≠ "") :
    jsOr m d ≠ "" := by
  cases m with
  | none => simpa [jsOr] using hd
  | some s =>
    by_cases hs : s = ""
    · simpa [jsOr, hs] using hd
    · simp [jsOr, hs]

/-! ### Claims -/

/-- C9: when no environment string is given and the production flag is false,
base-URL resolution returns exactly `http://localhost:4000/api`. -/
theorem getBaseURL_dev_fallback :
    getBaseURL none false = "http://localhost:4000/api" := rfl

/-- C8: when no environment string is given and the production flag is true,
base-URL resolution returns exactly the empty string and emits the
missing-configuration diagnostic to the console; being a total function it
neither throws nor crashes. -/
theorem getBaseURL_prod_missing :
    getBaseURL none true = "" ∧
      (getBaseURLLog none true).2 = [ConsoleEntry.consoleError [missingConfigMessage]] :=
  ⟨rfl, rfl⟩

/-- C1: every failure passed to the response interceptor — whether or not a
response was received — is rejected with a normalized error whose `errorCode`
is a non-empty string; no failure is swallowed or resolved as a success. -/
theorem interceptor_rejects_nonempty_errorCode (error : ErrorInput) :
    ∃ e, (errorInterceptor error).outcome = HandlerOutcome.reject e ∧ e.errorCode ≠ "" := by
  cases h : error.response with
  | none =>
    refine ⟨{ response := none
              message := some (jsOr error.message "Network error. Please check your API configuration.")
              errorCode := "NETWORK_ERROR" }, by simp [errorInterceptor, h], by simp⟩
  | some resp =>
    refine ⟨{ response := some resp
              message := error.message
              errorCode := jsOr (bodyErrorCode resp.data) "UNKNOWN_ERROR" },
      by simp [errorInterceptor, h], jsOr_ne_empty _ _ (by simp)⟩

/-- C3: for every failure with no `response` (network-level failure) the
interceptor logs the failure message via `console.error`, and rejects with a
normalized error whose `errorCode` is exactly `NETWORK_ERROR` and whose
`message` is the underlying failure message when a non-empty one exists, else
the fixed fallback string. -/
theorem interceptor_network_error (error : ErrorInput) (h : error.response = none) :
    ∃ e, (errorInterceptor error).outcome = HandlerOutcome.reject e ∧
      e.errorCode = "NETWORK_ERROR" ∧
      (errorInterceptor error).log =
        [ConsoleEntry.consoleError ["Network error:", showOptMsg error.message]] ∧
      (∀ s, error.message = some s → s ≠ "" → e.message = some s) ∧
      (error.message = none →
        e.message = some "Network error. Please check your API configuration.") := by
  refine ⟨{ response := none
            message := some (jsOr error.message "Network error. Please check your API configuration.")
            errorCode := "NETWORK_ERROR" },
    by simp [errorInterceptor, h], rfl, by simp [errorInterceptor, h], ?_, ?_⟩
  · intro s hs hne
    simp [hs, jsOr, hne]
  · intro hnone
    simp [hnone, jsOr]

/-- Witness for C3 at a concrete network failure carrying the message `boom`. -/
theorem interceptor_network_error_witness :
    ∃ e, (errorInterceptor { response := none, message := some "boom" }).outcome
          = HandlerOutcome.reject e ∧
      e.errorCode = "NETWORK_ERROR" ∧
      (errorInterceptor { response := none, message := some "boom" }).log =
        [ConsoleEntry.consoleError ["Network error:", "boom"]] ∧
      e.message = some "boom" := by
  obtain ⟨e, h1, h2, h3, h4, -⟩ :=
    interceptor_network_error { response := none, message := some "boom" } rfl
  exact ⟨e, h1, h2, h3, h4 "boom" rfl (by decide)⟩

/-- C2 counterexample: a response body whose `errorCode` field is present but
holds the empty string.  The claim says the rejected errorCode then equals the
field value (the empty string); the code feeds the field through JavaScript
`||`, so an empty field falls back to `UNKNOWN_ERROR` instead. -/
theorem interceptor_errorCode_empty_field_cex :
    bodyErrorCode (Body.obj (some "")) = some "" ∧
    (errorInterceptor
        { response := some { data := Body.obj (some ""), status := 400 }
          message := none }).outcome
      = HandlerOutcome.reject
          { response := some { data := Body.obj (some ""), status := 400 }
            message := none
            errorCode := "UNKNOWN_ERROR" } ∧
    "UNKNOWN_ERROR" ≠ "" := ⟨rfl, rfl, by decide⟩

/-- C2 (amended): for every failure that carries a response, the rejected
errorCode equals the body errorCode field when that field is present and
non-empty, and the literal `UNKNOWN_ERROR` otherwise (field absent, or present
but empty). -/
theorem interceptor_errorCode_from_body (error : ErrorInput) (resp : ErrorResponse)
    (h : error.response = some resp) :
    ∃ e, (errorInterceptor error).outcome = HandlerOutcome.reject e ∧
      e.errorCode = (match bodyErrorCode resp.data with
        | some c => if c = "" then "UNKNOWN_ERROR" else c
        | none => "UNKNOWN_ERROR") := by
  refine ⟨{ response := some resp
            message := error.message
            errorCode := jsOr (bodyErrorCode resp.data) "UNKNOWN_ERROR" },
    by simp [errorInterceptor, h], ?_⟩
  cases hb : bodyErrorCode resp.data with
  | none => simp [jsOr]
  | some c => by_cases hc : c = "" <;> simp [jsOr, hc]

/-- Witness for C2 (amended) at the body of the spec example: the errorCode
field holds `VALIDATION_FAILED` and the rejected error carries it. -/
theorem interceptor_errorCode_from_body_witness :
    ∃ e, (errorInterceptor
        { response := some { data := Body.obj (some "VALIDATION_FAILED"), status := 400 }
          message := none }).outcome = HandlerOutcome.reject e ∧
      e.errorCode = "VALIDATION_FAILED" := by
  obtain ⟨e, h1, h2⟩ := interceptor_errorCode_from_body
    { response := some { data := Body.obj (some "VALIDATION_FAILED"), status := 400 }
      message := none }
    { data := Body.obj (some "VALIDATION_FAILED"), status := 400 } rfl
  exact ⟨e, h1, h2.trans (by decide)⟩

/-- C4: a response with status exactly 401 and body literally the string
`Unauthorized` triggers a navigation to the root path; any other received
response triggers no navigation; and in both cases the operation is rejected
with a normalized error whose errorCode comes from the body errorCode field or
is `UNKNOWN_ERROR`, and is non-empty. -/
theorem interceptor_unauthorized_redirect (error : ErrorInput) (resp : ErrorResponse)
    (h : error.response = some resp) :
    ((resp.data = Body.str "Unauthorized" ∧ resp.status = 401) →
      (errorInterceptor error).location = some "/") ∧
    (¬(resp.data = Body.str "Unauthorized" ∧ resp.status = 401) →
      (errorInterceptor error).location = none) ∧
    ∃ e, (errorInterceptor error).outcome = HandlerOutcome.reject e ∧
      e.errorCode ≠ "" ∧
      ((∃ c, bodyErrorCode resp.data = some c ∧ c ≠ "" ∧ e.errorCode = c) ∨
        e.errorCode = "UNKNOWN_ERROR") := by
  refine ⟨fun hc => by simp [errorInterceptor, h, hc],
    fun hc => by simp [errorInterceptor, h, hc], ?_⟩
  refine ⟨{ response := some resp
            message := error.message
            errorCode := jsOr (bodyErrorCode resp.data) "UNKNOWN_ERROR" },
    by simp [errorInterceptor, h], jsOr_ne_empty _ _ (by simp), ?_⟩
  cases hb : bodyErrorCode resp.data with
  | none => exact Or.inr (by simp [jsOr])
  | some c =>
    by_cases hcc : c = ""
    · exact Or.inr (by simp [jsOr, hcc])
    · exact Or.inl ⟨c, rfl, hcc, by simp [jsOr, hcc]⟩

/-- Witness for C4 at the concrete 401 Unauthorized failure: navigation to the
root path occurs and the rejection still carries a non-empty errorCode. -/
theorem interceptor_unauthorized_redirect_witness :
    (errorInterceptor
      { response := some { data := Body.str "Unauthorized", status := 401 }
        message := none }).location = some "/" ∧
    ∃ e, (errorInterceptor
      { response := some { data := Body.str "Unauthorized", status := 401 }
        message := none }).outcome = HandlerOutcome.reject e ∧ e.errorCode ≠ "" := by
  obtain ⟨h1, -, h3⟩ := interceptor_unauthorized_redirect
    { response := some { data := Body.str "Unauthorized", status := 401 }, message := none }
    { data := Body.str "Unauthorized", status := 401 } rfl
  exact ⟨h1 ⟨rfl, rfl⟩, h3.imp fun e he => ⟨he.1, he.2.1⟩⟩

/-- C6: a present environment string whose trimmed form begins with a protocol
resolves to the trimmed string with exactly one trailing slash removed when one
is present. -/
theorem getBaseURL_protocol_present (s : String) (prod : Bool) (h0 : s ≠ "")
    (h : (jsStartsWith (jsTrim s) "http://" || jsStartsWith (jsTrim s) "https://") = true) :
    getBaseURL (some s) prod =
      (if jsEndsWith (jsTrim s) "/" then String.mk (jsTrim s).data.dropLast else jsTrim s) := by
  simp [getBaseURL, getBaseURLLog, h0, h, stripTrailingSlash]

/-- Witness for C6 at the spec example: `https://api.example.com/` resolves to
`https://api.example.com`. -/
theorem getBaseURL_protocol_present_witness :
    getBaseURL (some "https://api.example.com/") true = "https://api.example.com" :=
  (getBaseURL_protocol_present "https://api.example.com/" true (by decide)
    (by decide)).trans (by decide)

/-- C7: a present environment string whose trimmed form lacks a protocol
resolves to the trimmed string prefixed with `https://` in production and
`http://` otherwise, with a single trailing slash stripped from the result. -/
theorem getBaseURL_protocol_added (s : String) (prod : Bool) (h0 : s ≠ "")
    (h : (jsStartsWith (jsTrim s) "http://" || jsStartsWith (jsTrim s) "https://") = false) :
    getBaseURL (some s) prod =
      (if jsEndsWith ((if prod then "https://" else "http://") ++ jsTrim s) "/"
       then String.mk ((if prod then "https://" else "http://") ++ jsTrim s).data.dropLast
       else (if prod then "https://" else "http://") ++ jsTrim s) := by
  simp [getBaseURL, getBaseURLLog, h0, h, stripTrailingSlash]

/-- Witness for C7 at the spec example: `api.example.com` with the production
flag off resolves to `http://api.example.com`. -/
theorem getBaseURL_protocol_added_witness :
    getBaseURL (some "api.example.com") false = "http://api.example.com" :=
  (getBaseURL_protocol_added "api.example.com" false (by decide)
    (by decide)).trans (by decide)

/-- C5 counterexample: the bare protocol string `https://` contains a
protocol, but resolution is not idempotent on it — one resolution strips the
trailing slash leaving `https:/`, which no longer begins with a protocol, so a
second resolution prefixes a protocol again and yields a different string. -/
theorem getBaseURL_idem_cex :
    (jsStartsWith (jsTrim "https://") "http://"
      || jsStartsWith (jsTrim "https://") "https://") = true ∧
    getBaseURL (some "https://") true = "https:/" ∧
    getBaseURL (some (getBaseURL (some "https://") true)) true = "https://https:" ∧
    "https://https:" ≠ "https:/" := ⟨by decide, by decide, by decide, by decide⟩

/-- C5 (amended): resolution is idempotent for a protocol-bearing environment
string provided its once-resolved value still begins with `http://` or
`https://`, does not end with a slash, and carries no leading or trailing
whitespace; it is not idempotent in general (the bare protocol string is a
counterexample). -/
theorem getBaseURL_idem_amended (s : String) (prod : Bool)
    (_h1 : (jsStartsWith (jsTrim s) "http://" || jsStartsWith (jsTrim s) "https://") = true)
    (h2 : (jsStartsWith (getBaseURL (some s) prod) "http://"
            || jsStartsWith (getBaseURL (some s) prod) "https://") = true)
    (h3 : jsEndsWith (getBaseURL (some s) prod) "/" = false)
    (h4 : jsTrim (getBaseURL (some s) prod) = getBaseURL (some s) prod) :
    getBaseURL (some (getBaseURL (some s) prod)) prod = getBaseURL (some s) prod := by
  obtain ⟨r, hr⟩ : ∃ r, getBaseURL (some s) prod = r := ⟨_, rfl⟩
  rw [hr] at h2 h3 h4 ⊢
  have hne : r ≠ "" := by
    intro he
    rw [he] at h2
    exact absurd h2 (by decide)
  simp [getBaseURL, getBaseURLLog, hne, h4, h2, stripTrailingSlash, h3]

/-- Witness for C5 (amended) at `https://x`, whose resolved value `https://x`
keeps its protocol, ends in no slash and has no surrounding whitespace. -/
theorem getBaseURL_idem_amended_witness :
    getBaseURL (some (getBaseURL (some "https://x") true)) true
      = getBaseURL (some "https://x") true :=
  getBaseURL_idem_amended "https://x" true (by decide) (by decide) (by decide) (by decide)

/-- C10 counterexample: the one-space environment string is non-empty and
whitespace-only; the claim predicts the bare protocol `https://` in
production, but the code appends the empty trimmed string to the protocol and
then strips the trailing slash of the protocol itself, returning `https:/`. -/
theorem getBaseURL_whitespace_cex :
    " " ≠ "" ∧ jsTrim " " = "" ∧
    getBaseURL (some " ") true = "https:/" ∧
    "https:/" ≠ "https://" := ⟨by decide, by decide, by decide, by decide⟩

/-- C10 (amended): a non-empty, whitespace-only environment string is treated
as present rather than absent — the result is the protocol with its trailing
slash stripped, `https:/` under the production flag and `http:/` otherwise,
not the empty-string or localhost fallback used for absent input. -/
theorem getBaseURL_whitespace_only (s : String) (h1 : s ≠ "") (h2 : jsTrim s = "") :
    getBaseURL (some s) true = "https:/" ∧
    getBaseURL (some s) false = "http:/" ∧
    getBaseURL (some s) true ≠ getBaseURL none true ∧
    getBaseURL (some s) false ≠ getBaseURL none false := by
  refine ⟨?_, ?_, ?_, ?_⟩ <;>
    simp [getBaseURL, getBaseURLLog, h1, h2, stripTrailingSlash, fallbackResult,
      jsStartsWith, jsEndsWith] <;> decide

/-- Witness for C10 (amended) at the one-space environment string. -/
theorem getBaseURL_whitespace_only_witness :
    getBaseURL (some " ") true = "https:/" ∧ getBaseURL (some " ") false = "http:/" := by
  obtain ⟨w1, w2, -, -⟩ := getBaseURL_whitespace_only " " (by decide) (by decide)
  exact ⟨w1, w2⟩

end AxiosClient
